import Mathlib

/-!
Shallow embedding of `collate_measurements.py` (the windowed training-set
construction pipeline of the wxnet repository).

Modelling choices:
* Timestamps are integers counting microseconds since the epoch, the exact
  resolution of Python `datetime`.  `datetime.timedelta(days=n)` is
  `n * dayUs` microseconds and the one-second epsilon is `secondUs`.
* Python floats are modelled as rationals; the calibration arithmetic is
  exact at the precision the claims discuss.
* `_write_csv` indexes `data[0]` for the CSV header, which raises
  `IndexError` on an empty list; this is modelled by returning `none`.
* `random.shuffle` is modelled by an arbitrary function parameter supplied
  to the pipeline entry point.
* Python `int()` truncates toward zero and Python slice indices clamp (and
  count from the end when negative); `py_int` and `py_index` model this.
-/

namespace Collate

/-- One second, in microseconds (the `epsilon` of `_collect_training_data`). -/
def secondUs : Int := 1000000

/-- One day, in microseconds (`datetime.timedelta(days=1)`). -/
def dayUs : Int := 86400000000

/-- The four configuration flags of `collate_measurements.py`:
`--history_length` (integer days, default 7), `--prediction_length`
(integer days, default 2), `--scraper_resolution` (integer, default 4)
and `--train_split` (float, default 0.85). -/
structure Config where
  history_length : Int
  prediction_length : Int
  scraper_resolution : Int
  train_split : Rat
  deriving DecidableEq

/-- The calibrated `Measurement` dataclass: timestamp (microseconds),
relative humidity, temperature in Celsius, pressure in millibars. -/
structure Measurement where
  timestamp : Int
  humidity : Rat
  temperature : Rat
  pressure : Rat
  deriving DecidableEq

/-- `Measurement.get_csv_header`. -/
def Measurement.get_csv_header : String :=
  "timestamp,humidity,temperature,pressure"

/-- `Measurement.get_csv_line` (the timestamp is rendered in microseconds
rather than ISO format; no claim concerns the textual form). -/
def Measurement.get_csv_line (m : Measurement) : String :=
  toString m.timestamp ++ "," ++ toString m.humidity ++ ","
    ++ toString m.temperature ++ "," ++ toString m.pressure

/-- `Measurement.get_history_start`: `timestamp - timedelta(days=history_length)`. -/
def Measurement.get_history_start (cfg : Config) (m : Measurement) : Int :=
  m.timestamp - cfg.history_length * dayUs

/-- `Measurement.get_prediction_end`: `timestamp + timedelta(days=prediction_length)`. -/
def Measurement.get_prediction_end (cfg : Config) (m : Measurement) : Int :=
  m.timestamp + cfg.prediction_length * dayUs

/-- The `TrainingSet` dataclass: anchor measurement plus its history and
future windows. -/
structure TrainingSet where
  actual : Measurement
  history : List Measurement
  future : List Measurement
  deriving DecidableEq

/-- `TrainingSet.is_valid`: both windows hold exactly
`scraper_resolution * history_length` resp.
`scraper_resolution * prediction_length` entries. -/
def TrainingSet.is_valid (cfg : Config) (t : TrainingSet) : Bool :=
  ((t.history.length : Int) == cfg.scraper_resolution * cfg.history_length) &&
  ((t.future.length : Int) == cfg.scraper_resolution * cfg.prediction_length)

/-- `_fahrenheit_to_celsius(f) = (f - 32.0 - 8.0) / 1.8`. -/
def fahrenheit_to_celsius (f : Rat) : Rat := (f - 32.0 - 8.0) / 1.8

/-- `_calibrate_humidity(h) = h + 4.0`. -/
def calibrate_humidity (h : Rat) : Rat := h + 4.0

/-- `_write_csv`: writes the header obtained from `data[0]` followed by one
line per entry.  On an empty list `data[0]` raises `IndexError`, modelled
as `none`. -/
def write_csv (data : List Measurement) : Option (List String) :=
  match data with
  | [] => none
  | _ :: _ => some (Measurement.get_csv_header :: data.map Measurement.get_csv_line)

/-- `_get_time_bracketed_entries`: all entries of `data` with
`start <= timestamp <= stop`, in series order. -/
def get_time_bracketed_entries (start stop : Int) (data : List Measurement) :
    List Measurement :=
  data.filter (fun d => start ≤ d.timestamp && d.timestamp ≤ stop)

/-- The `TrainingSet` built for one anchor inside `_collect_training_data`:
history bracketed by `[get_history_start, timestamp - epsilon]`, future by
`[timestamp + epsilon, get_prediction_end]`, both queried over the whole
series. -/
def make_training_set (cfg : Config) (data : List Measurement)
    (m : Measurement) : TrainingSet :=
  { actual := m
    history := get_time_bracketed_entries (m.get_history_start cfg)
      (m.timestamp - secondUs) data
    future := get_time_bracketed_entries (m.timestamp + secondUs)
      (m.get_prediction_end cfg) data }

/-- The loop of `_collect_training_data`: build the example for each
measurement, keep it when valid, log and drop it otherwise, and continue. -/
def collect_loop (cfg : Config) (full : List Measurement) :
    List Measurement → List TrainingSet
  | [] => []
  | m :: rest =>
    if (make_training_set cfg full m).is_valid cfg then
      make_training_set cfg full m :: collect_loop cfg full rest
    else
      collect_loop cfg full rest

/-- `_collect_training_data`: run the loop over the whole series. -/
def collect_training_data (cfg : Config) (data : List Measurement) :
    List TrainingSet :=
  collect_loop cfg data data

/-- One decoded raw sample `(unix timestamp, humidity, temperature °F,
pressure)` from the input JSON. -/
structure RawSample where
  timestamp : Int
  humidity : Rat
  temperature_f : Rat
  pressure : Rat
  deriving DecidableEq

/-- The per-sample cleaning step of `main`: build a `Measurement` with
calibrated humidity and temperature. -/
def calibrate (r : RawSample) : Measurement :=
  { timestamp := r.timestamp
    humidity := calibrate_humidity r.humidity
    temperature := fahrenheit_to_celsius r.temperature_f
    pressure := r.pressure }

/-- Comparison used by `sorted(cleaned_data, key=lambda d: d.timestamp)`. -/
def measurement_le (a b : Measurement) : Bool := a.timestamp ≤ b.timestamp

/-- Python `sorted` by the timestamp key: a stable sort, modelled by
`List.mergeSort` (stable merge sort). -/
def sort_by_timestamp (l : List Measurement) : List Measurement :=
  l.mergeSort measurement_le

/-- Python `int()` applied to a float: truncation toward zero. -/
def py_int (x : Rat) : Int := if 0 ≤ x then ⌊x⌋ else ⌈x⌉

/-- The effective start position of the Python slices `l[:i]` and `l[i:]`:
negative indices count from the end and clamp at zero; `List.take` and
`List.drop` already clamp above the length. -/
def py_index (n : Nat) (i : Int) : Nat :=
  if i < 0 then ((n : Int) + i).toNat else i.toNat

/-- The splitter of `main`: `training_idx = int(len(data) * train_split)`,
training set `data[:training_idx]`, validation set `data[training_idx:]`.
The argument is the already-shuffled example sequence. -/
def py_split (l : List TrainingSet) (s : Rat) : List TrainingSet × List TrainingSet :=
  (l.take (py_index l.length (py_int ((l.length : Rat) * s))),
   l.drop (py_index l.length (py_int ((l.length : Rat) * s))))

/-- The pipeline of `main` after JSON decoding: calibrate, sort, write the
CSV (which fails on an empty series), collect examples, shuffle, split.
Returns the sorted series, the training set and the validation set, or
`none` when the run raises. -/
def run_main (cfg : Config) (shuffle : List TrainingSet → List TrainingSet)
    (raw : List RawSample) :
    Option (List Measurement × List TrainingSet × List TrainingSet) :=
  match write_csv (sort_by_timestamp (raw.map calibrate)) with
  | none => none
  | some _ =>
    some (sort_by_timestamp (raw.map calibrate),
      (py_split (shuffle (collect_training_data cfg
        (sort_by_timestamp (raw.map calibrate)))) cfg.train_split).1,
      (py_split (shuffle (collect_training_data cfg
        (sort_by_timestamp (raw.map calibrate)))) cfg.train_split).2)

/-- Tolerance for the spec's two-decimal approximate temperatures. -/
abbrev approx_eq (a b : Rat) : Prop := |a - b| ≤ 1 / 100

/-- Default configuration: the flag defaults of `collate_measurements.py`. -/
def default_config : Config :=
  { history_length := 7, prediction_length := 2, scraper_resolution := 4,
    train_split := 85 / 100 }

/-- Fixture: a measurement at the epoch. -/
def m_zero : Measurement := { timestamp := 0, humidity := 0, temperature := 0, pressure := 0 }

/-- Fixture: a measurement half a second after the epoch (timestamps have
sub-second resolution in the source feed). -/
def m_halfsec : Measurement :=
  { timestamp := 500000, humidity := 0, temperature := 0, pressure := 0 }

/-- Fixture: a two-entry series whose timestamps are half a second apart. -/
def data_subsecond : List Measurement := [m_zero, m_halfsec]

/-- Fixture: the configuration named by end-to-end scenario A
(`history_length = 2`, `prediction_length = 2`, `resolution = 1`). -/
def cfgC6 : Config :=
  { history_length := 2, prediction_length := 2, scraper_resolution := 1,
    train_split := 85 / 100 }

/-- Fixture: ten measurements evenly spaced one hour apart. -/
def scenario_hourly : List Measurement :=
  (List.range 10).map (fun i =>
    { timestamp := (i : Int) * 3600000000, humidity := 0, temperature := 0, pressure := 0 })

/-- Fixture: ten measurements evenly spaced one day apart (one day is the
unit of the code's `--history_length` and `--prediction_length` windows). -/
def scenario_daily : List Measurement :=
  (List.range 10).map (fun i =>
    { timestamp := (i : Int) * dayUs, humidity := 0, temperature := 0, pressure := 0 })

/-- Fixture: a configuration that is invalid per the spec: negative window
lengths and a train split outside `(0, 1)`. -/
def cfg_bad : Config :=
  { history_length := -1, prediction_length := -1, scraper_resolution := 4,
    train_split := 2 }

/-- Fixture: a single raw sample, the one of end-to-end scenario B. -/
def raw_single : List RawSample :=
  [{ timestamp := 0, humidity := 50, temperature_f := 80, pressure := 1000 }]

/-- Fixture: two distinct measurements sharing one timestamp. -/
def m_eq_a : Measurement := { timestamp := 42, humidity := 0, temperature := 0, pressure := 0 }

/-- Fixture: the second measurement with the shared timestamp. -/
def m_eq_b : Measurement := { timestamp := 42, humidity := 1, temperature := 1, pressure := 1 }

/-- Fixture: a series holding two distinct entries with equal timestamps. -/
def data_eqts : List Measurement := [m_eq_a, m_eq_b]

/-- Fixture: a first training example for splitter tests. -/
def ts_a : TrainingSet := { actual := m_zero, history := [], future := [] }

/-- Fixture: a second training example for splitter tests. -/
def ts_b : TrainingSet := { actual := m_halfsec, history := [], future := [] }

/-- The loop of `_collect_training_data` keeps exactly the valid examples,
in order: dropping an invalid example never stops the traversal. -/
theorem collect_loop_eq_filter (cfg : Config) (full : List Measurement) :
    ∀ rest : List Measurement,
      collect_loop cfg full rest =
        (rest.map (make_training_set cfg full)).filter
          (fun e => e.is_valid cfg) := by
  intro rest
  induction rest with
  | nil => rfl
  | cons m rest ih =>
    cases h : (make_training_set cfg full m).is_valid cfg <;>
      simp [collect_loop, List.filter_cons, h, ih]

/-- C3 counterexample: the code calibrates 80 °F to 200/9 ≈ 22.22 °C, not to
approximately 17.78 °C as the claim states. -/
theorem C3_counterexample :
    fahrenheit_to_celsius 80 = 200 / 9 ∧
    ¬ approx_eq (fahrenheit_to_celsius 80) (1778 / 100) := by
  constructor
  · norm_num [fahrenheit_to_celsius]
  · intro h
    rw [approx_eq, abs_le] at h
    norm_num [fahrenheit_to_celsius] at h

/-- C3 (amended): calibrating the raw sample `(t, humidity=50, temp_f=80,
pressure=1000)` yields humidity 54.0, temperature approximately 22.22 °C
(exactly 200/9), and pressure 1000. -/
theorem C3_calibration (t : Int) :
    (calibrate ⟨t, 50, 80, 1000⟩).humidity = 54 ∧
    approx_eq (calibrate ⟨t, 50, 80, 1000⟩).temperature (2222 / 100) ∧
    (calibrate ⟨t, 50, 80, 1000⟩).pressure = 1000 := by
  refine ⟨by norm_num [calibrate, calibrate_humidity], ?_, rfl⟩
  rw [approx_eq, abs_le]
  constructor <;> norm_num [calibrate, fahrenheit_to_celsius]

/-- C4: an example is valid iff its history has exactly
`scraper_resolution * history_length` entries and its future exactly
`scraper_resolution * prediction_length` entries, and the collector keeps
exactly the valid examples while dropping every invalid one and
continuing — a validity failure is never fatal. -/
theorem C4_validity_and_drop (cfg : Config) (t : TrainingSet)
    (data : List Measurement) :
    (t.is_valid cfg = true ↔
      ((t.history.length : Int) = cfg.scraper_resolution * cfg.history_length ∧
       (t.future.length : Int) = cfg.scraper_resolution * cfg.prediction_length)) ∧
    collect_training_data cfg data =
      (data.map (make_training_set cfg data)).filter
        (fun e => e.is_valid cfg) := by
  constructor
  · simp [TrainingSet.is_valid]
  · exact collect_loop_eq_filter cfg data data

/-- C2 counterexample: in a series whose entries are half a second apart,
the earlier entry lies inside the claimed history interval
`[anchor.timestamp - history_length, anchor.timestamp)` of the later
anchor, and the later entry lies inside the claimed future interval
`(anchor.timestamp, anchor.timestamp + prediction_length]` of the earlier
anchor, yet the code places neither in the corresponding window: both
windows stop one full second away from the anchor. -/
theorem C2_counterexample :
    m_zero ∈ data_subsecond ∧
    m_halfsec.timestamp - default_config.history_length * dayUs ≤ m_zero.timestamp ∧
    m_zero.timestamp < m_halfsec.timestamp ∧
    m_zero ∉ (make_training_set default_config data_subsecond m_halfsec).history ∧
    m_halfsec.timestamp ≤ m_zero.timestamp + default_config.prediction_length * dayUs ∧
    m_zero.timestamp < m_halfsec.timestamp ∧
    m_halfsec ∉ (make_training_set default_config data_subsecond m_zero).future := by
  decide

/-- C2 (amended): the history window holds exactly the series entries with
timestamp in `[anchor - history_length days, anchor - 1 second]` and the
future window exactly those with timestamp in
`[anchor + 1 second, anchor + prediction_length days]` (both bounds
inclusive, offset from the anchor by the one-second epsilon). -/
theorem C2_window_membership (cfg : Config) (data : List Measurement)
    (m e : Measurement) :
    (e ∈ (make_training_set cfg data m).history ↔
      e ∈ data ∧ m.timestamp - cfg.history_length * dayUs ≤ e.timestamp ∧
        e.timestamp ≤ m.timestamp - secondUs) ∧
    (e ∈ (make_training_set cfg data m).future ↔
      e ∈ data ∧ m.timestamp + secondUs ≤ e.timestamp ∧
        e.timestamp ≤ m.timestamp + cfg.prediction_length * dayUs) := by
  constructor <;>
    simp [make_training_set, get_time_bracketed_entries, List.mem_filter,
      Measurement.get_history_start, Measurement.get_prediction_end, and_assoc]

/-- C1: on the empty input series the example collector and the splitter
both yield empty results, but the pipeline itself aborts: `_write_csv`
evaluates `data[0].get_csv_header()` on the empty cleaned series, raising
`IndexError` (modelled as `none`) before any training data is produced. -/
theorem C1_empty_series (cfg : Config)
    (shuffle : List TrainingSet → List TrainingSet) (s : Rat) :
    run_main cfg shuffle [] = none ∧
    collect_training_data cfg [] = [] ∧
    py_split [] s = ([], []) := by
  refine ⟨?_, rfl, ?_⟩
  · simp [run_main, sort_by_timestamp, write_csv]
  · simp [py_split, py_int, py_index]

/-- C6 counterexample: on ten measurements spaced one hour apart with
`history_length = 2`, `prediction_length = 2` and `scraper_resolution = 1`,
the collector yields no valid example at all (the code's windows span two
days, so every anchor sees all of its neighbours and no window count ever
equals 2), not the six examples the claim states. -/
theorem C6_counterexample :
    collect_training_data cfgC6 scenario_hourly = [] ∧
    (collect_training_data cfgC6 scenario_hourly).length ≠ 6 := by
  decide

/-- C6 (amended): on ten measurements evenly spaced one day apart — one day
being the unit of the code's window lengths — with `history_length = 2`,
`prediction_length = 2` and `scraper_resolution = 1`, the collector yields
exactly six valid examples, anchored at indices 2 through 7 (timestamps
2·day … 7·day), each with exactly two history and two future entries. -/
theorem C6_scenario_daily :
    (collect_training_data cfgC6 scenario_daily).length = 6 ∧
    (collect_training_data cfgC6 scenario_daily).map (fun t => t.actual.timestamp) =
      [2 * dayUs, 3 * dayUs, 4 * dayUs, 5 * dayUs, 6 * dayUs, 7 * dayUs] ∧
    ∀ t ∈ collect_training_data cfgC6 scenario_daily,
      t.history.length = 2 ∧ t.future.length = 2 := by
  decide

/-- Transitivity of the timestamp comparison used by the sort. -/
theorem measurement_le_trans : ∀ a b c : Measurement,
    measurement_le a b → measurement_le b c → measurement_le a c := by
  intro a b c hab hbc
  simp only [measurement_le, decide_eq_true_eq] at *
  omega

/-- Totality of the timestamp comparison used by the sort. -/
theorem measurement_le_total : ∀ a b : Measurement,
    measurement_le a b || measurement_le b a := by
  intro a b
  simp only [measurement_le, Bool.or_eq_true, decide_eq_true_eq]
  omega

/-- Stability of the sort: for each timestamp, the entries carrying it
appear in the sorted series exactly as they appear in the input. -/
theorem sort_filter_timestamp (l : List Measurement) (t : Int) :
    (sort_by_timestamp l).filter (fun d => d.timestamp == t) =
      l.filter (fun d => d.timestamp == t) := by
  have pw : (l.filter (fun d => d.timestamp == t)).Pairwise
      (fun a b => measurement_le a b = true) := by
    apply List.pairwise_of_forall_mem_list
    intro a ha b hb
    simp only [List.mem_filter, beq_iff_eq] at ha hb
    simp only [measurement_le, decide_eq_true_eq]
    omega
  have h1 : List.Sublist (l.filter (fun d => d.timestamp == t))
      (sort_by_timestamp l) :=
    List.sublist_mergeSort measurement_le_trans measurement_le_total pw
      (List.filter_sublist l)
  have h2 : List.Sublist (l.filter (fun d => d.timestamp == t))
      ((sort_by_timestamp l).filter (fun d => d.timestamp == t)) := by
    have h3 := h1.filter (fun d => d.timestamp == t)
    rwa [List.filter_filter, show
      (fun a => (a.timestamp == t) && (a.timestamp == t)) =
        (fun a : Measurement => a.timestamp == t) from by
          funext a
          rw [Bool.and_self]] at h3
  have hlen : ((sort_by_timestamp l).filter (fun d => d.timestamp == t)).length =
      (l.filter (fun d => d.timestamp == t)).length :=
    ((List.mergeSort_perm l measurement_le).filter
      (fun d => d.timestamp == t)).length_eq
  exact (h2.eq_of_length hlen.symm).symm

/-- C7: the series built by calibrating the raw samples and sorting is
non-decreasing by timestamp for every input order, and the sort is stable:
for every timestamp the entries carrying it keep their original relative
order. -/
theorem C7_sorted_and_stable (raw : List RawSample) :
    List.Pairwise (fun a b => a.timestamp ≤ b.timestamp)
      (sort_by_timestamp (raw.map calibrate)) ∧
    ∀ t : Int,
      (sort_by_timestamp (raw.map calibrate)).filter (fun d => d.timestamp == t) =
        (raw.map calibrate).filter (fun d => d.timestamp == t) := by
  constructor
  · have h := List.sorted_mergeSort measurement_le_trans measurement_le_total
      (raw.map calibrate)
    exact h.imp (by
      intro a b hab
      simpa [measurement_le] using hab)
  · intro t
    exact sort_filter_timestamp (raw.map calibrate) t

/-- C5: for a train split in `(0, 1)` the splitter cuts the shuffled
example sequence at index `floor(len * train_split)`: the training set is
the prefix, the validation set the suffix, their concatenation is the
whole sequence (so the two are disjoint as a partition and every example
lands in exactly one of them), and their lengths sum to the input
length. -/
theorem C5_split_at_floor (l : List TrainingSet) (s : Rat)
    (h0 : 0 < s) (_h1 : s < 1) :
    (py_split l s).1 = l.take (⌊(l.length : Rat) * s⌋).toNat ∧
    (py_split l s).2 = l.drop (⌊(l.length : Rat) * s⌋).toNat ∧
    (py_split l s).1 ++ (py_split l s).2 = l ∧
    (py_split l s).1.length + (py_split l s).2.length = l.length ∧
    ((py_split l s).1 : Multiset TrainingSet) +
      ((py_split l s).2 : Multiset TrainingSet) = (l : Multiset TrainingSet) := by
  have hx : (0 : Rat) ≤ (l.length : Rat) * s :=
    mul_nonneg (by positivity) h0.le
  have hpy : py_int ((l.length : Rat) * s) = ⌊(l.length : Rat) * s⌋ := by
    simp [py_int, hx]
  have hfl0 : 0 ≤ ⌊(l.length : Rat) * s⌋ := Int.floor_nonneg.mpr hx
  have hidx : py_index l.length (py_int ((l.length : Rat) * s)) =
      (⌊(l.length : Rat) * s⌋).toNat := by
    rw [hpy]
    simp only [py_index]
    rw [if_neg (not_lt.mpr hfl0)]
  have ht : (py_split l s).1 = l.take (⌊(l.length : Rat) * s⌋).toNat := by
    simp only [py_split, hidx]
  have hd : (py_split l s).2 = l.drop (⌊(l.length : Rat) * s⌋).toNat := by
    simp only [py_split, hidx]
  have happ : (py_split l s).1 ++ (py_split l s).2 = l := by
    rw [ht, hd]
    exact List.take_append_drop _ l
  refine ⟨ht, hd, happ, ?_, ?_⟩
  · have hlen := congrArg List.length happ
    simpa using hlen
  · calc ((py_split l s).1 : Multiset TrainingSet) +
        ((py_split l s).2 : Multiset TrainingSet)
        = (((py_split l s).1 ++ (py_split l s).2 : List TrainingSet) :
            Multiset TrainingSet) := rfl
      _ = (l : Multiset TrainingSet) := by rw [happ]

/-- Witness for C5 at a two-element sequence and split 1/2. -/
theorem C5_split_witness :
    (0 : Rat) < 1 / 2 ∧ (1 / 2 : Rat) < 1 ∧
    ((py_split [ts_a, ts_b] (1 / 2)).1 =
        [ts_a, ts_b].take (⌊(([ts_a, ts_b].length : Nat) : Rat) * (1 / 2)⌋).toNat ∧
     (py_split [ts_a, ts_b] (1 / 2)).2 =
        [ts_a, ts_b].drop (⌊(([ts_a, ts_b].length : Nat) : Rat) * (1 / 2)⌋).toNat ∧
     (py_split [ts_a, ts_b] (1 / 2)).1 ++ (py_split [ts_a, ts_b] (1 / 2)).2 =
        [ts_a, ts_b] ∧
     (py_split [ts_a, ts_b] (1 / 2)).1.length +
        (py_split [ts_a, ts_b] (1 / 2)).2.length = [ts_a, ts_b].length ∧
     ((py_split [ts_a, ts_b] (1 / 2)).1 : Multiset TrainingSet) +
        ((py_split [ts_a, ts_b] (1 / 2)).2 : Multiset TrainingSet) =
          ([ts_a, ts_b] : Multiset TrainingSet)) :=
  ⟨by norm_num, by norm_num,
    C5_split_at_floor [ts_a, ts_b] (1 / 2) (by norm_num) (by norm_num)⟩

/-- C8 counterexample: with negative window lengths and a train split of 2
— all outside the spec's legal ranges — the run does not fail at startup:
it processes the single-sample input to completion, producing the sorted
series and empty training and validation sets. -/
theorem C8_counterexample :
    run_main cfg_bad id raw_single =
      some ([calibrate ⟨0, 50, 80, 1000⟩], [], []) := by
  simp [run_main, sort_by_timestamp, raw_single, write_csv,
    collect_training_data, collect_loop, make_training_set,
    get_time_bracketed_entries, TrainingSet.is_valid, cfg_bad,
    Measurement.get_history_start, Measurement.get_prediction_end,
    dayUs, secondUs, py_split, py_int, py_index, calibrate]

/-- C8 (amended): the code validates no configuration value: for every
configuration — train split outside `(0, 1)` and negative window lengths
included — and every non-empty input, the run proceeds through the whole
pipeline and completes. -/
theorem C8_no_config_validation (cfg : Config)
    (shuffle : List TrainingSet → List TrainingSet) (raw : List RawSample)
    (h : raw ≠ []) : (run_main cfg shuffle raw).isSome = true := by
  have hlen : (sort_by_timestamp (raw.map calibrate)).length = raw.length := by
    simp [sort_by_timestamp]
  cases hs : sort_by_timestamp (raw.map calibrate) with
  | nil =>
    rw [hs] at hlen
    cases raw with
    | nil => exact absurd rfl h
    | cons a rest => simp at hlen
  | cons d rest =>
    simp [run_main, hs, write_csv]

/-- Witness for C8 at the invalid configuration and a one-sample input. -/
theorem C8_witness :
    raw_single ≠ [] ∧ (run_main cfg_bad id raw_single).isSome = true :=
  ⟨by simp [raw_single],
    C8_no_config_validation cfg_bad id raw_single (by simp [raw_single])⟩

/-- C9: no series entry whose timestamp lies strictly within one second of
the anchor's timestamp appears in the anchor's history or future window —
in particular two distinct measurements with equal timestamps are absent
from each other's windows — because both window boundaries are offset from
the anchor timestamp by the one-second epsilon. -/
theorem C9_epsilon_exclusion (cfg : Config) (data : List Measurement)
    (m e : Measurement) (h : |e.timestamp - m.timestamp| < secondUs) :
    e ∉ (make_training_set cfg data m).history ∧
    e ∉ (make_training_set cfg data m).future := by
  rw [abs_lt] at h
  simp only [secondUs] at h
  refine ⟨fun hmem => ?_, fun hmem => ?_⟩
  · simp only [make_training_set, get_time_bracketed_entries, List.mem_filter,
      Bool.and_eq_true, decide_eq_true_eq, Measurement.get_history_start,
      secondUs] at hmem
    obtain ⟨-, -, h2⟩ := hmem
    omega
  · simp only [make_training_set, get_time_bracketed_entries, List.mem_filter,
      Bool.and_eq_true, decide_eq_true_eq, Measurement.get_prediction_end,
      secondUs] at hmem
    obtain ⟨-, h2, -⟩ := hmem
    omega

/-- Witness for C9: two distinct entries with equal timestamps; the second
is in neither window of the first. -/
theorem C9_epsilon_witness :
    |m_eq_b.timestamp - m_eq_a.timestamp| < secondUs ∧
    (m_eq_b ∉ (make_training_set default_config data_eqts m_eq_a).history ∧
     m_eq_b ∉ (make_training_set default_config data_eqts m_eq_a).future) :=
  ⟨by decide,
    C9_epsilon_exclusion default_config data_eqts m_eq_a m_eq_b (by decide)⟩

/-- C10: for every non-empty example sequence and every train split
strictly below 1 the validation set is non-empty — the cut index
`floor(len * train_split)` is strictly below the length — and with exactly
one example and the default split 0.85 the training set is empty and the
validation set holds that one example. -/
theorem C10_validation_nonempty (l : List TrainingSet) (s : Rat)
    (hne : l ≠ []) (hs : s < 1) :
    (py_split l s).2 ≠ [] ∧
    ⌊(l.length : Rat) * s⌋ < (l.length : Int) ∧
    ∀ x : TrainingSet, py_split [x] (85 / 100) = ([], [x]) := by
  have hlen : 0 < l.length := List.length_pos.mpr hne
  have hfl : ⌊(l.length : Rat) * s⌋ < (l.length : Int) := by
    rw [Int.floor_lt]
    have hmul : (l.length : Rat) * s < (l.length : Rat) * 1 :=
      mul_lt_mul_of_pos_left hs (by exact_mod_cast hlen)
    simpa using hmul
  refine ⟨?_, hfl, ?_⟩
  · simp only [py_split, Ne, List.drop_eq_nil_iff, not_le]
    by_cases hx : (0 : Rat) ≤ (l.length : Rat) * s
    · have hpy : py_int ((l.length : Rat) * s) = ⌊(l.length : Rat) * s⌋ := by
        simp [py_int, hx]
      have h0 : 0 ≤ ⌊(l.length : Rat) * s⌋ := Int.floor_nonneg.mpr hx
      rw [hpy]
      simp only [py_index]
      rw [if_neg (not_lt.mpr h0)]
      omega
    · have hpy : py_int ((l.length : Rat) * s) = ⌈(l.length : Rat) * s⌉ := by
        simp [py_int, hx]
      have hc : ⌈(l.length : Rat) * s⌉ ≤ 0 := by
        rw [Int.ceil_le]
        push_cast
        exact (lt_of_not_le hx).le
      rw [hpy]
      simp only [py_index]
      by_cases hneg : ⌈(l.length : Rat) * s⌉ < 0
      · rw [if_pos hneg]
        omega
      · rw [if_neg hneg]
        omega
  · intro x
    have h85 : py_int (85 / 100 : Rat) = 0 := by
      simp only [py_int]
      rw [if_pos (by norm_num)]
      norm_num
    simp [py_split, h85, py_index]

/-- Witness for C10 at a one-element sequence and the default split. -/
theorem C10_validation_witness :
    ([ts_a] : List TrainingSet) ≠ [] ∧ (85 / 100 : Rat) < 1 ∧
    ((py_split [ts_a] (85 / 100)).2 ≠ [] ∧
     ⌊(([ts_a].length : Nat) : Rat) * (85 / 100)⌋ < (([ts_a].length : Nat) : Int) ∧
     ∀ x : TrainingSet, py_split [x] (85 / 100) = ([], [x])) :=
  ⟨by simp, by norm_num,
    C10_validation_nonempty [ts_a] (85 / 100) (by simp) (by norm_num)⟩

end Collate
